import Mathlib

/-!
Shallow embedding of the resilient telemetry session loop of
`iot-tokuron-dev-rs` (`src/main.rs`: `run`; `src/bin/iot_core_client_sync.rs`:
`run`), together with theorems checking the natural-language specification
against it.

Modelling conventions:
* Sensor samples are triples of components. Each component is represented by
  the string that Rust's `Debug` formatting renders for the floating-point
  value (the components only ever flow into `format!("... {:?} ...")`, so the
  rendered literal is the whole observable content). The triple shape and the
  `(x, y, z)` rendering follow the spec's external Sensor Source contract:
  `read_accel() -> (f, f, f)`, `read_gyro() -> (f, f, f)` — the sensor driver
  is an external collaborator, not part of this repository.
* The environment (`Env`) is an oracle giving the result of the i-th
  subscribe call, timer call, gyro read, acc read and publish call; the two
  loops of the publish-cycle branch are fuel-indexed interpreters producing a
  trace of issued calls (each trace event records the call and its result)
  and an optional terminal outcome (`none` = still running when fuel ran out).
* `Outcome.panicked e` models a Rust `unwrap()` panic aborting the task;
  `Outcome.err e` models an `Err(e)` value returned from the branch.
* The `select` of the two branches is modelled by `sessionOutcome`, taking
  which branch finished first and both branch results, exactly mirroring the
  `match res { Either::First(res) => res, Either::Second(res) => res }`.
-/

namespace IotSession

/-- Opaque error code standing in for `EspError` (a wrapped `esp_err_t`). -/
abbrev EspError := Nat

/-- A sensor triple; each component is the `Debug`-rendered float literal. -/
abbrev Triple := String × String × String

/-- Rust `Debug` rendering of a float triple `(x, y, z)` (modelled from the
spec's external Sensor Source contract, which yields `(f, f, f)` triples). -/
def fmtTriple (t : Triple) : String :=
  "(" ++ t.1 ++ ", " ++ t.2.1 ++ ", " ++ t.2.2 ++ ")"

/-- Serialization of a sample:
`format!("\x7b\"gyro\": {:?}, \"acc\": {:?}\x7d", gyro, acc)`
(src/main.rs line 201). -/
def mkPayload (gyro acc : Triple) : String :=
  "\x7b\"gyro\": " ++ fmtTriple gyro ++ ", \"acc\": " ++ fmtTriple acc ++ "\x7d"

deriving instance DecidableEq for Except

/-- One observable call issued by a branch, together with its result.
`delayMs` is `timer.after`, `sleepMs` is `std::thread::sleep`. -/
inductive Ev where
  | subscribeCall (res : Option EspError)
  | delayMs (n : Nat)
  | readGyro (r : Except EspError Triple)
  | readAcc (r : Except EspError Triple)
  | sleepMs (n : Nat)
  | serialize (payload : String)
  | publish (payload : String) (res : Option EspError)
deriving DecidableEq

/-- Terminal outcome of a branch: returned `Ok(())`, returned `Err e`, or
aborted in a panic (an `unwrap()` on `Err e`). -/
inductive Outcome where
  | ok
  | err (e : EspError)
  | panicked (e : EspError)
deriving DecidableEq

/-- Oracle for the results of the external calls made by the publish-cycle
branch, indexed by how many calls of that kind were made before. -/
structure Env where
  subRes : Nat → Option EspError
  timerRes : Nat → Option EspError
  gyroRes : Nat → Except EspError Triple
  accRes : Nat → Except EspError Triple
  pubRes : Nat → Option EspError

/-- Per-kind call counters threaded through the interpreter. -/
structure Cnt where
  sub : Nat
  timer : Nat
  gyro : Nat
  acc : Nat
  pub : Nat
deriving DecidableEq

def Cnt.zero : Cnt := ⟨0, 0, 0, 0, 0⟩

/-- One iteration of the inner (publish cadence) loop, src/main.rs lines
191–213: gyro read (`unwrap`), acc read (`unwrap`), `thread::sleep(1s)`,
`format!` serialization, `publish` (`?`), `timer.after(2s)` (`?`).
Returns the events of the iteration and either a terminal outcome or the
updated counters. -/
def innerIter (env : Env) (c : Cnt) : List Ev × Except Outcome Cnt :=
  match env.gyroRes c.gyro with
  | .error e => ([Ev.readGyro (.error e)], .error (.panicked e))
  | .ok gyro =>
    match env.accRes c.acc with
    | .error e => ([Ev.readGyro (.ok gyro), Ev.readAcc (.error e)],
                   .error (.panicked e))
    | .ok acc =>
      let payload := mkPayload gyro acc
      match env.pubRes c.pub with
      | some e =>
        ([Ev.readGyro (.ok gyro), Ev.readAcc (.ok acc), Ev.sleepMs 1000,
          Ev.serialize payload, Ev.publish payload (some e)],
         .error (.err e))
      | none =>
        match env.timerRes c.timer with
        | some e =>
          ([Ev.readGyro (.ok gyro), Ev.readAcc (.ok acc), Ev.sleepMs 1000,
            Ev.serialize payload, Ev.publish payload none, Ev.delayMs 2000],
           .error (.err e))
        | none =>
          ([Ev.readGyro (.ok gyro), Ev.readAcc (.ok acc), Ev.sleepMs 1000,
            Ev.serialize payload, Ev.publish payload none, Ev.delayMs 2000],
           .ok { c with gyro := c.gyro + 1, acc := c.acc + 1,
                        pub := c.pub + 1, timer := c.timer + 1 })

/-- The inner `loop`, run for `fuel` iterations (`none` = still running). -/
def innerLoop (env : Env) : Nat → Cnt → List Ev × Option Outcome
  | 0, _ => ([], none)
  | fuel + 1, c =>
    match innerIter env c with
    | (evs, .error out) => (evs, some out)
    | (evs, .ok c2) =>
      let rest := innerLoop env fuel c2
      (evs ++ rest.1, rest.2)

/-- The outer (subscribe-retry) `loop`, src/main.rs lines 175–214: subscribe;
on `Err` log, `timer.after(500ms)` (`?`), `continue`; on `Ok` log,
`timer.after(500ms)` (`?`), enter the inner loop (which never exits
normally). `ofuel` bounds the number of subscribe attempts. -/
def outerLoop (env : Env) : Nat → Nat → Cnt → List Ev × Option Outcome
  | 0, _, _ => ([], none)
  | ofuel + 1, ifuel, c =>
    match env.subRes c.sub with
    | some e =>
      match env.timerRes c.timer with
      | some te => ([Ev.subscribeCall (some e), Ev.delayMs 500], some (.err te))
      | none =>
        let rest := outerLoop env ofuel ifuel
          { c with sub := c.sub + 1, timer := c.timer + 1 }
        ([Ev.subscribeCall (some e), Ev.delayMs 500] ++ rest.1, rest.2)
    | none =>
      match env.timerRes c.timer with
      | some te => ([Ev.subscribeCall none, Ev.delayMs 500], some (.err te))
      | none =>
        let rest := innerLoop env ifuel
          { c with sub := c.sub + 1, timer := c.timer + 1 }
        ([Ev.subscribeCall none, Ev.delayMs 500] ++ rest.1, rest.2)

/-- The whole publish-cycle branch (second argument of `select`). -/
def publishBranch (env : Env) (ofuel ifuel : Nat) : List Ev × Option Outcome :=
  outerLoop env ofuel ifuel Cnt.zero

/-- The connection-pump branch, src/main.rs lines 162–172:
`while let Ok(event) = connection.next().await { log }` then `Ok(())`.
Returns the logged payloads and the outcome (`none` = still pumping). -/
def pumpLoop (recv : Nat → Except EspError String) :
    Nat → Nat → List String × Option Outcome
  | 0, _ => ([], none)
  | fuel + 1, i =>
    match recv i with
    | .ok payload =>
      let rest := pumpLoop recv fuel (i + 1)
      (payload :: rest.1, rest.2)
    | .error _ => ([], some .ok)

def pumpBranch (recv : Nat → Except EspError String) (fuel : Nat) :
    List String × Option Outcome :=
  pumpLoop recv fuel 0

/-- Which branch of the `select` finished first. -/
inductive Winner where
  | first
  | second

/-- Resolution of the race:
`match res { Either::First(res) => res, Either::Second(res) => res }`
(src/main.rs lines 219–222): the session outcome is the finished branch's
result, unchanged. -/
def sessionOutcome : Winner → Outcome → Outcome → Outcome
  | .first, pumpRes, _ => pumpRes
  | .second, _, cycleRes => cycleRes

/-! Synchronous variant, src/bin/iot_core_client_sync.rs `run`
(lines 115–141): subscribe-retry with `thread::sleep(500ms)`, then an inner
loop that enqueues the constant payload and sleeps 2 s; no sensor access. -/

/-- The constant payload of the synchronous variant (line 130). -/
def syncPayload : String := "Hello from esp-mqtt-demo!"

/-- Oracle for the synchronous variant (its sleeps cannot fail). -/
structure SyncEnv where
  subRes : Nat → Option EspError
  pubRes : Nat → Option EspError

/-- Inner loop of the synchronous variant: `enqueue` (`?`), log,
`thread::sleep(2s)`. -/
def syncInner (env : SyncEnv) : Nat → Nat → List Ev × Option Outcome
  | 0, _ => ([], none)
  | fuel + 1, p =>
    match env.pubRes p with
    | some e => ([Ev.publish syncPayload (some e)], some (.err e))
    | none =>
      let rest := syncInner env fuel (p + 1)
      ([Ev.publish syncPayload none, Ev.sleepMs 2000] ++ rest.1, rest.2)

/-- Outer loop of the synchronous variant. -/
def syncOuter (env : SyncEnv) : Nat → Nat → Nat → List Ev × Option Outcome
  | 0, _, _ => ([], none)
  | ofuel + 1, ifuel, s =>
    match env.subRes s with
    | some e =>
      let rest := syncOuter env ofuel ifuel (s + 1)
      ([Ev.subscribeCall (some e), Ev.sleepMs 500] ++ rest.1, rest.2)
    | none =>
      let rest := syncInner env ifuel 0
      ([Ev.subscribeCall none, Ev.sleepMs 500] ++ rest.1, rest.2)

/-- The synchronous variant's publish thread. -/
def syncRun (env : SyncEnv) (ofuel ifuel : Nat) : List Ev × Option Outcome :=
  syncOuter env ofuel ifuel 0

/-! Trace predicates. -/

/-- Is the event a subscribe call? -/
def isSub : Ev → Bool
  | .subscribeCall _ => true
  | _ => false

/-- Is the event a publish call? -/
def isPub : Ev → Bool
  | .publish _ _ => true
  | _ => false

/-- Is the event a delay of any kind (timer wait or blocking sleep)? -/
def isDelay : Ev → Bool
  | .delayMs _ => true
  | .sleepMs _ => true
  | _ => false

/-- Is the event a gyro read? -/
def isGyroRead : Ev → Bool
  | .readGyro _ => true
  | _ => false

/-- Is the event a sensor read (gyro or acc)? -/
def isRead : Ev → Bool
  | .readGyro _ => true
  | .readAcc _ => true
  | _ => false

/-- Is the event the fixed 2 s post-publish timer delay? -/
def isDelay2000 : Ev → Bool
  | .delayMs 2000 => true
  | _ => false

/-- Every subscribe call in the trace is immediately followed by a 500 ms
timer delay. -/
def subsFollowed : List Ev → Bool
  | [] => true
  | Ev.subscribeCall _ :: rest =>
    match rest with
    | Ev.delayMs 500 :: _ => subsFollowed rest
    | _ => false
  | _ :: rest => subsFollowed rest

/-- No publish call occurs before the first successful subscribe
acknowledgment in the trace. -/
def noPubBeforeOk : List Ev → Bool
  | [] => true
  | Ev.subscribeCall none :: _ => true
  | Ev.publish _ _ :: _ => false
  | _ :: rest => noPubBeforeOk rest

/-- Trace of `n` consecutive failing subscribe attempts starting at subscribe
index `s`, each followed by its 500 ms retry delay (`es` gives the error of
each attempt). -/
def failPart (es : Nat → EspError) : Nat → Nat → List Ev
  | _, 0 => []
  | s, n + 1 =>
    Ev.subscribeCall (some (es s)) :: Ev.delayMs 500 :: failPart es (s + 1) n

/-! Concrete environments used in counterexamples and witnesses. -/

/-- Environment in which every call succeeds; sample values fixed. -/
def envOk : Env :=
  { subRes := fun _ => none
    timerRes := fun _ => none
    gyroRes := fun _ => .ok ("0.1", "0.2", "0.3")
    accRes := fun _ => .ok ("1.0", "-2.5", "0.0")
    pubRes := fun _ => none }

/-- Environment whose 3rd gyro read (index 2) fails with code 5; everything
else succeeds. -/
def envC1 : Env :=
  { subRes := fun _ => none
    timerRes := fun _ => none
    gyroRes := fun i => if i = 2 then .error 5 else .ok ("0.1", "0.2", "0.3")
    accRes := fun _ => .ok ("1.0", "-2.5", "0.0")
    pubRes := fun _ => none }

/-- Environment whose first publish (index 0) fails with code 9. -/
def envC6 : Env :=
  { subRes := fun _ => none
    timerRes := fun _ => none
    gyroRes := fun _ => .ok ("0.1", "0.2", "0.3")
    accRes := fun _ => .ok ("1.0", "-2.5", "0.0")
    pubRes := fun i => if i = 0 then some 9 else none }

/-- Environment whose first subscribe fails with code 3 and second succeeds. -/
def envC5 : Env :=
  { subRes := fun i => if i = 0 then some 3 else none
    timerRes := fun _ => none
    gyroRes := fun _ => .ok ("0.1", "0.2", "0.3")
    accRes := fun _ => .ok ("1.0", "-2.5", "0.0")
    pubRes := fun _ => none }

/-- Environment in which every subscribe fails with code 4. -/
def envC7 : Env :=
  { subRes := fun _ => some 4
    timerRes := fun _ => none
    gyroRes := fun _ => .ok ("0.1", "0.2", "0.3")
    accRes := fun _ => .ok ("1.0", "-2.5", "0.0")
    pubRes := fun _ => none }

/-- Receive stream that errors immediately with code 7. -/
def recvC2 : Nat → Except EspError String := fun _ => .error 7

/-- Synchronous-variant environment in which every call succeeds. -/
def syncEnvOk : SyncEnv :=
  { subRes := fun _ => none
    pubRes := fun _ => none }

/-! Theorems. -/

/-- Claim C4: serializing gyro (0.1, 0.2, 0.3) and acceleration
(1.0, -2.5, 0.0) yields exactly the payload text
with the gyro field first and the acc field second, braces around the whole,
each triple rendered as parenthesized comma-separated float literals. -/
theorem c4_serialization_format :
    mkPayload ("0.1", "0.2", "0.3") ("1.0", "-2.5", "0.0") =
      "\x7b\"gyro\": (0.1, 0.2, 0.3), \"acc\": (1.0, -2.5, 0.0)\x7d" := by
  rfl

/-- Claim C9: the Session Supervisor's result is exactly the result of
whichever branch finished first, with no transformation of the value. -/
theorem c9_supervisor_result (p q : Outcome) :
    sessionOutcome Winner.first p q = p ∧ sessionOutcome Winner.second p q = q :=
  ⟨rfl, rfl⟩

/-- Claim C2 counterexample: with a receive stream that errors immediately
(code 7), the pump branch finishes with `Ok(())` — the receive error is not
surfaced as the session's error result, contrary to the claim. -/
theorem c2_counterexample :
    recvC2 0 = Except.error 7 ∧
    (pumpBranch recvC2 1).2 = some Outcome.ok ∧
    (pumpBranch recvC2 1).2 ≠ some (Outcome.err 7) := by
  refine ⟨rfl, rfl, ?_⟩
  decide

/-- Claim C2 (amended): whenever the Connection Pump branch terminates, its
result is the success value `Ok(())` — a receive error ends the `while let`
loop and is absorbed, never surfaced as an error result. -/
theorem c2_pump_absorbs (recv : Nat → Except EspError String) :
    ∀ fuel i out, (pumpLoop recv fuel i).2 = some out → out = Outcome.ok := by
  intro fuel
  induction fuel with
  | zero =>
    intro i out h
    simp [pumpLoop] at h
  | succ n ih =>
    intro i out h
    unfold pumpLoop at h
    cases hr : recv i with
    | ok s =>
      rw [hr] at h
      exact ih (i + 1) out h
    | error e =>
      rw [hr] at h
      simp at h
      exact h.symm

/-- Witness for the amended C2 theorem at the concrete erroring stream. -/
theorem c2_pump_absorbs_witness :
    (pumpLoop recvC2 1 0).2 = some Outcome.ok ∧ Outcome.ok = Outcome.ok :=
  ⟨by decide, c2_pump_absorbs recvC2 1 0 Outcome.ok (by decide)⟩

/-- Claim C1 counterexample: with the 3rd gyro read failing (code 5) and all
other calls succeeding, the publish cycle does not return the sensor error as
its error result — it aborts in a panic (`unwrap()`), a different terminal
state. -/
theorem c1_counterexample :
    (publishBranch envC1 1 3).2 = some (Outcome.panicked 5) ∧
      (publishBranch envC1 1 3).2 ≠ some (Outcome.err 5) := by
  decide

set_option maxRecDepth 8000 in
/-- Claim C1 (amended): if the sensor read fails on the 3rd inner iteration,
the publish cycle terminates by panicking on the sensor error (it is not
returned as the cycle's error result) after exactly 2 completed publish/delay
cycles, with exactly 3 gyro reads issued — no retry of the read. -/
theorem c1_sensor_failure_panics (env : Env) (e : EspError)
    (g0 g1 a0 a1 : Triple) (ofuel ifuel : Nat)
    (hs : env.subRes 0 = none)
    (ht : ∀ i, env.timerRes i = none)
    (hp : ∀ i, env.pubRes i = none)
    (hg0 : env.gyroRes 0 = .ok g0) (hg1 : env.gyroRes 1 = .ok g1)
    (hg2 : env.gyroRes 2 = .error e)
    (ha0 : env.accRes 0 = .ok a0) (ha1 : env.accRes 1 = .ok a1) :
    (publishBranch env (ofuel + 1) (ifuel + 1 + 1 + 1)).2 =
        some (Outcome.panicked e) ∧
    (publishBranch env (ofuel + 1) (ifuel + 1 + 1 + 1)).1.countP isPub = 2 ∧
    (publishBranch env (ofuel + 1) (ifuel + 1 + 1 + 1)).1.countP isDelay2000 = 2 ∧
    (publishBranch env (ofuel + 1) (ifuel + 1 + 1 + 1)).1.countP isGyroRead = 3 := by
  have h : publishBranch env (ofuel + 1) (ifuel + 1 + 1 + 1) =
      ([Ev.subscribeCall none, Ev.delayMs 500,
        Ev.readGyro (.ok g0), Ev.readAcc (.ok a0), Ev.sleepMs 1000,
        Ev.serialize (mkPayload g0 a0), Ev.publish (mkPayload g0 a0) none,
        Ev.delayMs 2000,
        Ev.readGyro (.ok g1), Ev.readAcc (.ok a1), Ev.sleepMs 1000,
        Ev.serialize (mkPayload g1 a1), Ev.publish (mkPayload g1 a1) none,
        Ev.delayMs 2000,
        Ev.readGyro (.error e)],
       some (Outcome.panicked e)) := by
    simp [publishBranch, outerLoop, innerLoop, innerIter, Cnt.zero,
          hs, ht, hp, hg0, hg1, hg2, ha0, ha1]
  rw [h]
  simp [List.countP_cons, isPub, isDelay2000, isGyroRead]

/-- Witness for the amended C1 theorem at the concrete environment. -/
theorem c1_sensor_failure_panics_witness :
    (publishBranch envC1 (0 + 1) (0 + 1 + 1 + 1)).2 =
        some (Outcome.panicked 5) ∧
    (publishBranch envC1 (0 + 1) (0 + 1 + 1 + 1)).1.countP isPub = 2 ∧
    (publishBranch envC1 (0 + 1) (0 + 1 + 1 + 1)).1.countP isDelay2000 = 2 ∧
    (publishBranch envC1 (0 + 1) (0 + 1 + 1 + 1)).1.countP isGyroRead = 3 :=
  c1_sensor_failure_panics envC1 5
    ("0.1", "0.2", "0.3") ("0.1", "0.2", "0.3")
    ("1.0", "-2.5", "0.0") ("1.0", "-2.5", "0.0") 0 0
    rfl (fun _ => rfl) (fun _ => rfl)
    (by decide) (by decide) (by decide) (by decide) (by decide)

/-- Claim C3 counterexample: one successful inner-loop iteration contains the
1 s blocking sleep (src/main.rs line 199), a delay other than the 2 s
post-publish delay — contradicting "no other delay inside the iteration". -/
theorem c3_counterexample :
    Ev.sleepMs 1000 ∈ (innerIter envOk Cnt.zero).1 ∧
      isDelay (Ev.sleepMs 1000) = true ∧
      Ev.sleepMs 1000 ≠ Ev.delayMs 2000 := by
  decide

/-- Claim C3 (amended): every successful inner-loop iteration performs
exactly one gyro read, one acc read, a fixed 1 s blocking sleep, one
serialization, one publish of the freshly serialized sample, and the fixed
2 s post-publish delay, in that order — so in addition to the 2 s
post-publish delay there is a 1 s sleep between the acc read and the
serialization; the published payload comes from the same iteration's reads. -/
theorem c3_iteration_events (env : Env) (c : Cnt) (g a : Triple)
    (hg : env.gyroRes c.gyro = .ok g) (ha : env.accRes c.acc = .ok a)
    (hp : env.pubRes c.pub = none) (ht : env.timerRes c.timer = none) :
    innerIter env c =
      ([Ev.readGyro (.ok g), Ev.readAcc (.ok a), Ev.sleepMs 1000,
        Ev.serialize (mkPayload g a), Ev.publish (mkPayload g a) none,
        Ev.delayMs 2000],
       .ok { c with gyro := c.gyro + 1, acc := c.acc + 1,
                    pub := c.pub + 1, timer := c.timer + 1 }) := by
  simp [innerIter, hg, ha, hp, ht]

/-- Witness for the amended C3 theorem at the all-success environment. -/
theorem c3_iteration_events_witness :
    innerIter envOk Cnt.zero =
      ([Ev.readGyro (.ok ("0.1", "0.2", "0.3")),
        Ev.readAcc (.ok ("1.0", "-2.5", "0.0")), Ev.sleepMs 1000,
        Ev.serialize (mkPayload ("0.1", "0.2", "0.3") ("1.0", "-2.5", "0.0")),
        Ev.publish (mkPayload ("0.1", "0.2", "0.3") ("1.0", "-2.5", "0.0")) none,
        Ev.delayMs 2000],
       Except.ok ⟨0, 1, 1, 1, 1⟩) :=
  c3_iteration_events envOk Cnt.zero ("0.1", "0.2", "0.3")
    ("1.0", "-2.5", "0.0") rfl rfl rfl rfl

/-- Claim C6: when a publish call fails, the inner loop ends exactly at that
publish — the branch's result is the underlying transport error unchanged,
and no further subscribe, read, publish or delay event follows, no matter how
much fuel remains. -/
theorem c6_publish_failure_terminates (env : Env) (c : Cnt) (g a : Triple)
    (e : EspError) (fuel : Nat)
    (hg : env.gyroRes c.gyro = .ok g) (ha : env.accRes c.acc = .ok a)
    (hp : env.pubRes c.pub = some e) :
    innerLoop env (fuel + 1) c =
      ([Ev.readGyro (.ok g), Ev.readAcc (.ok a), Ev.sleepMs 1000,
        Ev.serialize (mkPayload g a), Ev.publish (mkPayload g a) (some e)],
       some (Outcome.err e)) := by
  simp [innerLoop, innerIter, hg, ha, hp]

/-- Witness for the C6 theorem at the failing-publish environment. -/
theorem c6_publish_failure_terminates_witness :
    innerLoop envC6 (0 + 1) Cnt.zero =
      ([Ev.readGyro (.ok ("0.1", "0.2", "0.3")),
        Ev.readAcc (.ok ("1.0", "-2.5", "0.0")), Ev.sleepMs 1000,
        Ev.serialize (mkPayload ("0.1", "0.2", "0.3") ("1.0", "-2.5", "0.0")),
        Ev.publish (mkPayload ("0.1", "0.2", "0.3") ("1.0", "-2.5", "0.0"))
          (some 9)],
       some (Outcome.err 9)) :=
  c6_publish_failure_terminates envC6 Cnt.zero ("0.1", "0.2", "0.3")
    ("1.0", "-2.5", "0.0") 9 0 rfl rfl (by decide)

/-- Claim C8: after a successful subscribe acknowledgment the very next event
is the fixed 500 ms settle delay, and only then does the inner loop (and so
any publish) start — no publish occurs between the subscribe success and the
completion of that delay. -/
theorem c8_settle_delay (env : Env) (ofuel ifuel : Nat) (c : Cnt)
    (hs : env.subRes c.sub = none) (ht : env.timerRes c.timer = none) :
    outerLoop env (ofuel + 1) ifuel c =
      (Ev.subscribeCall none :: Ev.delayMs 500 ::
        (innerLoop env ifuel { c with sub := c.sub + 1, timer := c.timer + 1 }).1,
       (innerLoop env ifuel { c with sub := c.sub + 1, timer := c.timer + 1 }).2) := by
  simp [outerLoop, hs, ht]

/-- Witness for the C8 theorem at the all-success environment. -/
theorem c8_settle_delay_witness :
    outerLoop envOk (0 + 1) 0 Cnt.zero =
      (Ev.subscribeCall none :: Ev.delayMs 500 ::
        (innerLoop envOk 0 ⟨1, 1, 0, 0, 0⟩).1,
       (innerLoop envOk 0 ⟨1, 1, 0, 0, 0⟩).2) :=
  c8_settle_delay envOk 0 0 Cnt.zero rfl rfl

/-- No inner-loop iteration ever issues a subscribe call. -/
theorem innerIter_no_sub (env : Env) (c : Cnt) :
    (innerIter env c).1.countP isSub = 0 := by
  unfold innerIter
  split
  · rfl
  · split
    · rfl
    · split
      · rfl
      · split <;> rfl

/-- The inner loop as a whole never issues a subscribe call. -/
theorem innerLoop_no_sub (env : Env) :
    ∀ fuel c, ((innerLoop env fuel c).1.countP isSub) = 0 := by
  intro fuel
  induction fuel with
  | zero => intro c; rfl
  | succ n ih =>
    intro c
    unfold innerLoop
    cases hit : innerIter env c with
    | mk evs r =>
      have hevs : evs.countP isSub = 0 := by
        have h := innerIter_no_sub env c
        rw [hit] at h
        exact h
      cases r with
      | error out => simpa using hevs
      | ok c2 => simp [List.countP_append, hevs, ih c2]

/-- Passing a subscribe call and its immediate 500 ms delay preserves
`subsFollowed`. -/
theorem subsFollowed_cons_pair (r : Option EspError) (xs : List Ev) :
    subsFollowed (Ev.subscribeCall r :: Ev.delayMs 500 :: xs) =
      subsFollowed xs := rfl

/-- A trace with no subscribe call satisfies `subsFollowed` vacuously. -/
theorem subsFollowed_of_no_sub :
    ∀ l : List Ev, l.countP isSub = 0 → subsFollowed l = true := by
  intro l
  induction l with
  | nil => intro _; rfl
  | cons ev rest ih =>
    intro h
    rw [List.countP_cons] at h
    by_cases hb : isSub ev = true
    · simp [hb] at h
    · have hb2 : isSub ev = false := by simpa using hb
      have hr : rest.countP isSub = 0 := by
        simpa [hb2] using h
      have hstep : subsFollowed (ev :: rest) = subsFollowed rest := by
        cases ev <;> first | rfl | (simp [isSub] at hb2)
      rw [hstep]
      exact ih hr

/-- The trace `failPart es s n` contains exactly `n` subscribe calls. -/
theorem failPart_countP_sub (es : Nat → EspError) :
    ∀ n s, (failPart es s n).countP isSub = n := by
  intro n
  induction n with
  | zero => intro s; rfl
  | succ k ih =>
    intro s
    simp [failPart, List.countP_cons, isSub, ih (s + 1)]

/-- Every subscribe call inside `failPart` is immediately followed by its
500 ms delay, whatever comes after. -/
theorem failPart_subsFollowed (es : Nat → EspError) :
    ∀ n s xs, subsFollowed (failPart es s n ++ xs) = subsFollowed xs := by
  intro n
  induction n with
  | zero => intro s xs; rfl
  | succ k ih =>
    intro s xs
    simp only [failPart, List.cons_append]
    rw [subsFollowed_cons_pair]
    exact ih (s + 1) xs

/-- No publish call occurs within `failPart` followed by a successful
subscribe. -/
theorem failPart_noPub (es : Nat → EspError) :
    ∀ n s xs,
      noPubBeforeOk (failPart es s n ++ Ev.subscribeCall none :: xs) = true := by
  intro n
  induction n with
  | zero => intro s xs; rfl
  | succ k ih =>
    intro s xs
    simp only [failPart, List.cons_append]
    show noPubBeforeOk (failPart es (s + 1) k ++ Ev.subscribeCall none :: xs) = true
    exact ih (s + 1) xs

/-- Every delay inside `failPart` is the flat 500 ms retry delay. -/
theorem failPart_delays (es : Nat → EspError) :
    ∀ n s, ∀ ev ∈ failPart es s n, isDelay ev = true → ev = Ev.delayMs 500 := by
  intro n
  induction n with
  | zero =>
    intro s ev hev
    simp [failPart] at hev
  | succ k ih =>
    intro s ev hev hd
    simp only [failPart, List.mem_cons] at hev
    rcases hev with rfl | rfl | hev
    · simp [isDelay] at hd
    · rfl
    · exact ih (s + 1) ev hev hd

/-- One failing-subscribe step of the outer loop. -/
theorem outerLoop_step_fail (env : Env) (ofuel ifuel : Nat) (c : Cnt)
    (e : EspError)
    (h : env.subRes c.sub = some e) (htm : env.timerRes c.timer = none) :
    outerLoop env (ofuel + 1) ifuel c =
      (Ev.subscribeCall (some e) :: Ev.delayMs 500 ::
        (outerLoop env ofuel ifuel
          { c with sub := c.sub + 1, timer := c.timer + 1 }).1,
       (outerLoop env ofuel ifuel
          { c with sub := c.sub + 1, timer := c.timer + 1 }).2) := by
  simp [outerLoop, h, htm]

/-- Shape of the outer loop when the first `N` subscribe attempts fail and
the `(N+1)`-th succeeds: the trace is the `N` failure/delay pairs, the
successful subscribe, the settle delay, then the inner loop. -/
theorem outerLoop_fail_shape (env : Env) (es : Nat → EspError)
    (ht : ∀ i, env.timerRes i = none) :
    ∀ N ofuel ifuel c,
      (∀ i, i < N → env.subRes (c.sub + i) = some (es (c.sub + i))) →
      env.subRes (c.sub + N) = none →
      outerLoop env (N + (ofuel + 1)) ifuel c =
        (failPart es c.sub N ++ Ev.subscribeCall none :: Ev.delayMs 500 ::
           (innerLoop env ifuel
             { c with sub := c.sub + N + 1, timer := c.timer + N + 1 }).1,
         (innerLoop env ifuel
             { c with sub := c.sub + N + 1, timer := c.timer + N + 1 }).2) := by
  intro N
  induction N with
  | zero =>
    intro ofuel ifuel c hf hs
    rw [Nat.add_zero] at hs
    rw [Nat.zero_add]
    simp [outerLoop, hs, ht c.timer, failPart]
  | succ k ih =>
    intro ofuel ifuel c hf hs
    have h0 : env.subRes c.sub = some (es c.sub) := by
      have h := hf 0 (Nat.succ_pos k)
      simpa using h
    have hf2 : ∀ i, i < k →
        env.subRes (c.sub + 1 + i) = some (es (c.sub + 1 + i)) := by
      intro i hi
      have h := hf (i + 1) (by omega)
      have ha : c.sub + (i + 1) = c.sub + 1 + i := by omega
      rw [ha] at h
      exact h
    have hs2 : env.subRes (c.sub + 1 + k) = none := by
      have ha : c.sub + (k + 1) = c.sub + 1 + k := by omega
      rw [ha] at hs
      exact hs
    have ihc := ih ofuel ifuel
      { c with sub := c.sub + 1, timer := c.timer + 1 } hf2 hs2
    have e1 : c.sub + 1 + k + 1 = c.sub + (k + 1) + 1 := by omega
    have e2 : c.timer + 1 + k + 1 = c.timer + (k + 1) + 1 := by omega
    have hfuel : k + 1 + (ofuel + 1) = k + (ofuel + 1) + 1 := by omega
    rw [hfuel]
    rw [outerLoop_step_fail env (k + (ofuel + 1)) ifuel c (es c.sub) h0
      (ht c.timer)]
    dsimp only at ihc ⊢
    rw [e1, e2] at ihc
    rw [ihc]
    simp [failPart]

/-- Shape of the outer loop when every subscribe attempt fails: the branch
never terminates and its trace is just the failure/delay pairs. -/
theorem outerLoop_allfail (env : Env) (es : Nat → EspError)
    (ht : ∀ i, env.timerRes i = none)
    (hf : ∀ i, env.subRes i = some (es i)) :
    ∀ ofuel ifuel c,
      outerLoop env ofuel ifuel c = (failPart es c.sub ofuel, none) := by
  intro ofuel
  induction ofuel with
  | zero => intro ifuel c; rfl
  | succ k ih =>
    intro ifuel c
    simp only [outerLoop, hf c.sub, ht c.timer]
    rw [ih ifuel { c with sub := c.sub + 1, timer := c.timer + 1 }]
    dsimp only
    simp [failPart]

/-- Claim C5: if the first `N` subscribe attempts fail and the `(N+1)`-th
succeeds, the publish cycle issues exactly `N+1` subscribe calls, each
immediately followed by a fixed 500 ms delay, and no publish call occurs
before the first successful subscribe acknowledgment. -/
theorem c5_subscribe_retry (env : Env) (es : Nat → EspError)
    (N ofuel ifuel : Nat)
    (ht : ∀ i, env.timerRes i = none)
    (hf : ∀ i, i < N → env.subRes i = some (es i))
    (hs : env.subRes N = none) :
    ((publishBranch env (N + (ofuel + 1)) ifuel).1.countP isSub = N + 1) ∧
    subsFollowed (publishBranch env (N + (ofuel + 1)) ifuel).1 = true ∧
    noPubBeforeOk (publishBranch env (N + (ofuel + 1)) ifuel).1 = true := by
  have hf0 : ∀ i, i < N →
      env.subRes (Cnt.zero.sub + i) = some (es (Cnt.zero.sub + i)) := by
    intro i hi
    simpa [Cnt.zero] using hf i hi
  have hs0 : env.subRes (Cnt.zero.sub + N) = none := by
    simpa [Cnt.zero] using hs
  have hshape := outerLoop_fail_shape env es ht N ofuel ifuel Cnt.zero hf0 hs0
  unfold publishBranch
  rw [hshape]
  refine ⟨?_, ?_, ?_⟩
  · simp [List.countP_append, List.countP_cons, failPart_countP_sub,
          innerLoop_no_sub, isSub]
  · rw [failPart_subsFollowed, subsFollowed_cons_pair]
    exact subsFollowed_of_no_sub _ (innerLoop_no_sub env ifuel _)
  · exact failPart_noPub es N Cnt.zero.sub _

/-- Witness for the C5 theorem: one failing subscribe (code 3), then a
successful one, with one inner iteration of fuel. -/
theorem c5_subscribe_retry_witness :
    ((publishBranch envC5 (1 + (0 + 1)) 1).1.countP isSub = 1 + 1) ∧
    subsFollowed (publishBranch envC5 (1 + (0 + 1)) 1).1 = true ∧
    noPubBeforeOk (publishBranch envC5 (1 + (0 + 1)) 1).1 = true :=
  c5_subscribe_retry envC5 (fun _ => 3) 1 0 1 (fun _ => rfl)
    (by
      intro i hi
      have h0 : i = 0 := by omega
      subst h0
      rfl)
    (by decide)

/-- Claim C7: if every subscribe attempt fails, the publish cycle never
terminates because of it: with fuel for `ofuel` attempts it makes exactly
`ofuel` subscribe calls, each immediately followed by the flat 500 ms retry
delay, every delay in the trace is exactly 500 ms (no backoff growth), and
the branch has no terminal outcome. -/
theorem c7_subscribe_failures_absorbed (env : Env) (es : Nat → EspError)
    (ofuel ifuel : Nat)
    (ht : ∀ i, env.timerRes i = none)
    (hf : ∀ i, env.subRes i = some (es i)) :
    (publishBranch env ofuel ifuel).2 = none ∧
    (publishBranch env ofuel ifuel).1.countP isSub = ofuel ∧
    subsFollowed (publishBranch env ofuel ifuel).1 = true ∧
    (∀ ev ∈ (publishBranch env ofuel ifuel).1,
      isDelay ev = true → ev = Ev.delayMs 500) := by
  unfold publishBranch
  rw [outerLoop_allfail env es ht hf ofuel ifuel Cnt.zero]
  refine ⟨rfl, ?_, ?_, ?_⟩
  · exact failPart_countP_sub es ofuel Cnt.zero.sub
  · have h := failPart_subsFollowed es ofuel Cnt.zero.sub []
    rw [List.append_nil] at h
    rw [h]
    rfl
  · intro ev hev hd
    exact failPart_delays es ofuel Cnt.zero.sub ev hev hd

/-- Witness for the C7 theorem: every subscribe fails with code 4, two
attempts of fuel. -/
theorem c7_subscribe_failures_absorbed_witness :
    (publishBranch envC7 2 0).2 = none ∧
    (publishBranch envC7 2 0).1.countP isSub = 2 ∧
    subsFollowed (publishBranch envC7 2 0).1 = true ∧
    (∀ ev ∈ (publishBranch envC7 2 0).1,
      isDelay ev = true → ev = Ev.delayMs 500) :=
  c7_subscribe_failures_absorbed envC7 (fun _ => 4) 2 0
    (fun _ => rfl) (fun _ => rfl)

/-- Every event of the synchronous variant's inner loop is a publish of the
constant payload or the 2 s sleep. -/
theorem syncInner_events (env : SyncEnv) :
    ∀ fuel p ev, ev ∈ (syncInner env fuel p).1 →
      (∃ r, ev = Ev.publish syncPayload r) ∨ ev = Ev.sleepMs 2000 := by
  intro fuel
  induction fuel with
  | zero =>
    intro p ev hev
    simp [syncInner] at hev
  | succ n ih =>
    intro p ev hev
    unfold syncInner at hev
    cases hp : env.pubRes p with
    | some e =>
      rw [hp] at hev
      simp at hev
      subst hev
      exact Or.inl ⟨some e, rfl⟩
    | none =>
      rw [hp] at hev
      simp at hev
      rcases hev with rfl | rfl | hev
      · exact Or.inl ⟨none, rfl⟩
      · exact Or.inr rfl
      · exact ih (p + 1) ev hev

/-- Every event of the synchronous variant's publish thread is a subscribe
call, a 500 ms sleep, a publish of the constant payload, or the 2 s sleep. -/
theorem syncOuter_events (env : SyncEnv) :
    ∀ ofuel ifuel s ev, ev ∈ (syncOuter env ofuel ifuel s).1 →
      (∃ r, ev = Ev.subscribeCall r) ∨ ev = Ev.sleepMs 500 ∨
      (∃ r, ev = Ev.publish syncPayload r) ∨ ev = Ev.sleepMs 2000 := by
  intro ofuel
  induction ofuel with
  | zero =>
    intro ifuel s ev hev
    simp [syncOuter] at hev
  | succ n ih =>
    intro ifuel s ev hev
    unfold syncOuter at hev
    cases hsr : env.subRes s with
    | some e =>
      rw [hsr] at hev
      simp at hev
      rcases hev with rfl | rfl | hev
      · exact Or.inl ⟨some e, rfl⟩
      · exact Or.inr (Or.inl rfl)
      · exact ih ifuel (s + 1) ev hev
    | none =>
      rw [hsr] at hev
      simp at hev
      rcases hev with rfl | rfl | hev
      · exact Or.inl ⟨none, rfl⟩
      · exact Or.inr (Or.inl rfl)
      · rcases syncInner_events env ifuel 0 ev hev with h | h
        · exact Or.inr (Or.inr (Or.inl h))
        · exact Or.inr (Or.inr (Or.inr h))

/-- Claim C10: in the synchronous variant's publish thread every published
payload is the constant string "Hello from esp-mqtt-demo!", and the thread
performs no sensor read at all, so the payload is identical on every
iteration and independent of any sensor state. -/
theorem c10_sync_constant_payload (env : SyncEnv) (ofuel ifuel : Nat) :
    (∀ pay r, Ev.publish pay r ∈ (syncRun env ofuel ifuel).1 →
      pay = syncPayload) ∧
    (∀ ev ∈ (syncRun env ofuel ifuel).1, isRead ev = false) := by
  constructor
  · intro pay r hmem
    unfold syncRun at hmem
    rcases syncOuter_events env ofuel ifuel 0 _ hmem with ⟨r2, h⟩ | h | ⟨r2, h⟩ | h
    · exact Ev.noConfusion h
    · exact Ev.noConfusion h
    · exact (Ev.publish.inj h).1
    · exact Ev.noConfusion h
  · intro ev hev
    unfold syncRun at hev
    rcases syncOuter_events env ofuel ifuel 0 ev hev with ⟨r2, h⟩ | h | ⟨r2, h⟩ | h <;>
      subst h <;> rfl

/-- Witness for the C10 theorem at the all-success environment. -/
theorem c10_sync_constant_payload_witness :
    syncPayload = syncPayload ∧ isRead (Ev.sleepMs 500) = false :=
  ⟨(c10_sync_constant_payload syncEnvOk 1 1).1 syncPayload none (by decide),
   (c10_sync_constant_payload syncEnvOk 1 1).2 (Ev.sleepMs 500) (by decide)⟩

end IotSession
